import Mathlib

/-!
Shallow embedding of the GhostTalk/AnonChat ephemeral session coordinator
(the socket.io server, final variant): in-memory state (`users`,
`communityMessages`, `privateRooms`, quiet-moment window), the per-socket
moderation counters, and the event handlers (`HEARTBEAT`, `MESSAGE`,
`CHAT_ACCEPT`, `CHAT_EXIT`, `CHAT_EXTENSION_DECISION`, `CHAT_REJOIN`) plus
the cleanup section of the 1-second ticker.  JavaScript `Map`s are modelled
as insertion-ordered association lists, `Date.now()` as a `Nat` argument
`now`, the random id suffix as a `String` argument `rnd`, and the external
moderation gateway as a function `String → Verdict`.  Handlers that can
throw a `TypeError` on an absent payload return `Except String _`.
-/

/-- Moderation gateway verdicts. -/
inductive Verdict where
  | ALLOWED
  | BORDERLINE
  | BLOCKED
deriving DecidableEq, Repr

/-- A chat message as carried in `MESSAGE` payloads. -/
structure Msg where
  id : String
  senderId : String
  senderName : String
  text : String
  timestamp : Nat
  roomId : String
deriving DecidableEq, Repr

/-- The slice of a user record the server reads (`u.id`). -/
structure UserRec where
  id : String
deriving DecidableEq, Repr

/-- A private room as stored in `privateRooms`.  `stageDecisions` maps a
stage key to a userId→decision map; both maps are insertion-ordered. -/
structure Room where
  id : String
  participants : List String
  reconnectCode : String
  createdAt : Nat
  expiresAt : Nat
  extended : Bool
  stageDecisions : List (String × List (String × String))
  rejoinStartedAt : Option Nat
deriving DecidableEq, Repr

/-- Per-connection moderation state kept on the socket object. -/
structure Conn where
  hasSeenSoftFirst : Bool
  borderlineCount : Nat
  isShadowLimited : Bool
deriving DecidableEq, Repr

/-- Fresh per-connection state set on `connection`. -/
def Conn.init : Conn :=
  { hasSeenSoftFirst := false, borderlineCount := 0, isShadowLimited := false }

/-- The server's in-memory state.  `users` is keyed by socket id,
`privateRooms` by room id. -/
structure ServerState where
  users : List (String × UserRec)
  communityMessages : List Msg
  privateRooms : List (String × Room)
  quietStart : Nat
  quietEnd : Nat
deriving DecidableEq, Repr

/-- Emitted socket events, one constructor per emit site.
`quietNotice`, `echoMsg`, `softWarning` and `errorEv` go to the sender
only (`socket.emit`); the rest are `io.emit` broadcasts. -/
inductive SEvent where
  | heartbeatEv (userId : String)
  | quietNotice (m : Msg)
  | echoMsg (m : Msg)
  | softWarning (m : Msg)
  | broadcastMsg (m : Msg)
  | sysBroadcast (m : Msg)
  | chatClosed (roomId : String) (reason : String) (sysMsg : Option String)
  | chatExtended (roomId : String)
  | chatAccepted (roomId : String)
  | errorEv (msg : String)
deriving DecidableEq, Repr

/-- Whether an event is delivered to the sender socket only. -/
def SEvent.senderOnly : SEvent → Bool
  | .quietNotice _ => true
  | .echoMsg _ => true
  | .softWarning _ => true
  | .errorEv _ => true
  | _ => false

/-- `map.get(k)` on an insertion-ordered JS `Map`. -/
def lookupA {α : Type} (l : List (String × α)) (k : String) : Option α :=
  (l.find? (fun p => p.1 = k)).map Prod.snd

/-- `map.set(k, v)`: replace in place if the key exists, else append. -/
def setA {α : Type} : List (String × α) → String → α → List (String × α)
  | [], k, v => [(k, v)]
  | (k', v') :: t, k, v =>
      if k' = k then (k, v) :: t else (k', v') :: setA t k v

/-- `map.delete(k)`. -/
def eraseA {α : Type} : List (String × α) → String → List (String × α)
  | [], _ => []
  | (k', v') :: t, k => if k' = k then t else (k', v') :: eraseA t k

/-- Payload of a `MESSAGE` event (`data.message` may be absent). -/
structure MessageData where
  message : Option Msg
deriving DecidableEq, Repr

/-- Payload of a `HEARTBEAT` event (`data.user` may be absent). -/
structure HBData where
  user : Option UserRec
deriving DecidableEq, Repr

/-- Payload of a `CHAT_EXIT` event. -/
structure ExitData where
  roomId : String
deriving DecidableEq, Repr

/-- Payload of a `CHAT_EXTENSION_DECISION` event. -/
structure ExtData where
  roomId : String
  stage : String
  decision : String
  userId : String
deriving DecidableEq, Repr

/-- The synthetic system message sent to the sender during a quiet moment. -/
def quietMsg (now : Nat) (rnd : String) : Msg :=
  { id := "sys_quiet_" ++ rnd, senderId := "system", senderName := "SYSTEM",
    text := "Quiet moment. Just read.", timestamp := now, roomId := "community" }

/-- The one-time soft moderation warning message. -/
def softMsg (roomId : String) (now : Nat) (rnd : String) : Msg :=
  { id := "sys_" ++ rnd, senderId := "system", senderName := "SYSTEM",
    text := "Letâ€™s keep Ghost Talk safe for everyone.",
    timestamp := now, roomId := roomId }

/-- The system message broadcast when both users agree to extend. -/
def extOkMsg (roomId : String) (now : Nat) (rnd : String) : Msg :=
  { id := "sys_ext_" ++ rnd, senderId := "system", senderName := "SYSTEM",
    text := "Both users agreed. Session extended by 30 minutes.",
    timestamp := now, roomId := roomId }

/-- The system message broadcast when an extension stage is declined. -/
def extNoMsg (roomId : String) (text : String) (now : Nat) (rnd : String) : Msg :=
  { id := "sys_ext_no_" ++ rnd, senderId := "system", senderName := "SYSTEM",
    text := text, timestamp := now, roomId := roomId }

/-- `communityMessages.push(m)` followed by the `> 200` shift. -/
def pushBounded (m : Msg) (buf : List Msg) : List Msg :=
  let b := buf ++ [m]
  if b.length > 200 then b.tail else b

/-- The `HEARTBEAT` handler.  An absent payload would dereference
`data.user` on `undefined` (TypeError); a payload without `user` is a
guarded no-op. -/
def handleHeartbeat (sockId : String) (s : ServerState) (data : Option HBData) :
    Except String (ServerState × List SEvent) :=
  match data with
  | none => .error "TypeError"
  | some d =>
    match d.user with
    | none => .ok (s, [])
    | some u => .ok ({ s with users := setA s.users sockId u },
                     [SEvent.heartbeatEv u.id])

/-- The `MESSAGE` handler: input guard, quiet-moment branch, moderation
(BLOCKED / BORDERLINE / shadow limiting), then community append and
broadcast. -/
def handleMessage (moderate : String → Verdict) (now : Nat) (rnd : String)
    (conn : Conn) (s : ServerState) (data : Option MessageData) :
    Conn × ServerState × List SEvent :=
  match data with
  | none => (conn, s, [])
  | some d =>
    match d.message with
    | none => (conn, s, [])
    | some m =>
      if m.text = "" then (conn, s, [])
      else if m.roomId = "community" ∧ now ≥ s.quietStart ∧ now ≤ s.quietEnd then
        (conn, s, [SEvent.quietNotice (quietMsg now rnd)])
      else
        match moderate m.text with
        | .BLOCKED =>
          if m.roomId ≠ "community" then
            if (lookupA s.privateRooms m.roomId).isSome then
              (conn, { s with privateRooms := eraseA s.privateRooms m.roomId },
               [SEvent.chatClosed m.roomId "moderation"
                 (some "This private chat has ended.")])
            else (conn, s, [])
          else (conn, s, [SEvent.echoMsg m])
        | v =>
          let conn1 :=
            if v = Verdict.BORDERLINE then
              let c := conn.borderlineCount + 1
              { conn with borderlineCount := c,
                          isShadowLimited := conn.isShadowLimited || decide (c > 4) }
            else conn
          let warned :=
            if v = Verdict.BORDERLINE ∧ conn1.hasSeenSoftFirst = false then
              ({ conn1 with hasSeenSoftFirst := true },
               [SEvent.softWarning (softMsg m.roomId now rnd)])
            else (conn1, ([] : List SEvent))
          let conn2 := warned.1
          if conn2.isShadowLimited then
            (conn2, s, warned.2 ++ [SEvent.echoMsg m])
          else
            let s' :=
              if m.roomId = "community" then
                { s with communityMessages := pushBounded m s.communityMessages }
              else s
            (conn2, s', warned.2 ++ [SEvent.broadcastMsg m])

/-- The `CHAT_ACCEPT` handler: store the accepted room (with fresh
`stageDecisions`) unconditionally and broadcast the acceptance. -/
def handleChatAccept (s : ServerState) (r : Room) : ServerState × List SEvent :=
  let room := { r with stageDecisions := [("5min", []), ("2min", [])] }
  ({ s with privateRooms := setA s.privateRooms room.id room },
   [SEvent.chatAccepted room.id])

/-- The `CHAT_EXIT` handler.  An absent payload dereferences
`data.roomId` on `undefined` (TypeError). -/
def handleChatExit (s : ServerState) (data : Option ExitData) :
    Except String (ServerState × List SEvent) :=
  match data with
  | none => .error "TypeError"
  | some d =>
    if (lookupA s.privateRooms d.roomId).isSome then
      .ok ({ s with privateRooms := eraseA s.privateRooms d.roomId },
           [SEvent.chatClosed d.roomId "exit" none])
    else .ok (s, [])

/-- The `CHAT_EXTENSION_DECISION` handler.  An absent payload fails the
destructuring `{ roomId, stage, decision, userId } = data` (TypeError).
Rooms stored by `CHAT_ACCEPT` always carry `stageDecisions`, so the
`if (!room.stageDecisions)` repair is the identity here. -/
def handleExtensionDecision (now : Nat) (rnd : String) (s : ServerState)
    (data : Option ExtData) : Except String (ServerState × List SEvent) :=
  match data with
  | none => .error "TypeError"
  | some d =>
    match lookupA s.privateRooms d.roomId with
    | none => .ok (s, [])
    | some room =>
      if room.extended then .ok (s, [])
      else
        let stageMap := (lookupA room.stageDecisions d.stage).getD []
        let stageMap' := setA stageMap d.userId d.decision
        let room1 := { room with
          stageDecisions := setA room.stageDecisions d.stage stageMap' }
        let decisions := stageMap'.map Prod.snd
        if decisions.length ≥ 2 then
          if decisions.all (fun x => x = "EXTEND") then
            let room2 := { room1 with extended := true, expiresAt := now + 1800000 }
            let rooms2 := setA (setA s.privateRooms d.roomId room2) room2.id room2
            .ok ({ s with privateRooms := rooms2 },
                 [SEvent.chatExtended room2.id,
                  SEvent.sysBroadcast (extOkMsg room2.id now rnd)])
          else
            let declined := decisions.find? (fun x => x = "LATER" || x = "END")
            let text :=
              if declined = some "LATER" then "The other person chose to decide later."
              else if declined = some "END" then
                "One user chose to end the chat when the timer expires."
              else "Extension declined."
            .ok ({ s with privateRooms := setA s.privateRooms d.roomId room1 },
                 [SEvent.sysBroadcast (extNoMsg room1.id text now rnd)])
        else
          .ok ({ s with privateRooms := setA s.privateRooms d.roomId room1 }, [])

/-- The `CHAT_REJOIN` handler: silent return when the requesting socket has
no user record; otherwise scan rooms for the reconnect code, re-adding the
requester and re-broadcasting acceptance, or emit the typed error. -/
def handleChatRejoin (sockId : String) (s : ServerState) (code : String) :
    ServerState × List SEvent :=
  match lookupA s.users sockId with
  | none => (s, [])
  | some cu =>
    match s.privateRooms.find? (fun p => p.2.reconnectCode = code) with
    | none => (s, [SEvent.errorEv "Invalid or Expired Secret Key"])
    | some (k, room) =>
      let room' :=
        if room.participants.contains cu.id then room
        else { room with participants := room.participants ++ [cu.id] }
      ({ s with privateRooms := setA s.privateRooms k room' },
       [SEvent.chatAccepted k])

/-- `Array.from(users.values()).filter(u => room.participants.includes(u.id)).length`. -/
def activeParticipantsCount (users : List (String × UserRec)) (room : Room) : Nat :=
  ((users.map Prod.snd).filter (fun u => room.participants.contains u.id)).length

/-- The private-room loop of the ticker's cleanup section: expiry, the
rejoin window, and clearing `rejoinStartedAt` when both participants are
present. -/
def tickRooms (now : Nat) (users : List (String × UserRec)) :
    List (String × Room) → List (String × Room) × List SEvent
  | [] => ([], [])
  | (id, r) :: rest =>
    if now > r.expiresAt then
      let done := tickRooms now users rest
      (done.1, SEvent.chatClosed id "expired" none :: done.2)
    else
      if activeParticipantsCount users r < 2 then
        match r.rejoinStartedAt with
        | none =>
          let done := tickRooms now users rest
          ((id, { r with rejoinStartedAt := some now }) :: done.1, done.2)
        | some t0 =>
          if now - t0 > 900000 then
            let done := tickRooms now users rest
            (done.1, SEvent.chatClosed id "rejoin_expired" none :: done.2)
          else
            let done := tickRooms now users rest
            ((id, r) :: done.1, done.2)
      else
        let done := tickRooms now users rest
        ((id, { r with rejoinStartedAt := none }) :: done.1, done.2)

/-- The cleanup section of the 1-second ticker: filter stale community
messages, then run the room loop. -/
def tickCleanup (now : Nat) (s : ServerState) : ServerState × List SEvent :=
  let buf := s.communityMessages.filter (fun m => now - m.timestamp < 300000)
  let rooms := tickRooms now s.users s.privateRooms
  ({ s with communityMessages := buf, privateRooms := rooms.1 }, rooms.2)

/-- The server's initial in-memory state (before the startup quiet-moment
randomization). -/
def initState : ServerState :=
  { users := [], communityMessages := [], privateRooms := [],
    quietStart := 0, quietEnd := 0 }

/-! ### Association-list lemmas -/

theorem lookupA_setA_self {α : Type} (l : List (String × α)) (k : String) (v : α) :
    lookupA (setA l k v) k = some v := by
  induction l with
  | nil => simp [setA, lookupA]
  | cons p t ih =>
    obtain ⟨k', v'⟩ := p
    by_cases h : k' = k
    · simp [setA, h, lookupA]
    · simp [setA, h, lookupA, List.find?] at ih ⊢
      simpa [h] using ih

theorem lookupA_setA_ne {α : Type} (l : List (String × α)) (k k' : String) (v : α)
    (h : k' ≠ k) : lookupA (setA l k v) k' = lookupA l k' := by
  induction l with
  | nil => simp [setA, lookupA, List.find?, Ne.symm h]
  | cons p t ih =>
    obtain ⟨k₀, v₀⟩ := p
    by_cases h0 : k₀ = k
    · subst h0
      simp [setA, lookupA, List.find?, Ne.symm h]
    · simp only [setA, if_neg h0]
      by_cases h1 : k₀ = k'
      · simp [lookupA, List.find?, h1]
      · simp only [lookupA, List.find?] at ih ⊢
        simp [h1, ih]

theorem mem_setA_of_ne {α : Type} (l : List (String × α)) (k : String) (v : α)
    (k' : String) (v' : α) (hmem : (k', v') ∈ l) (hne : k' ≠ k) :
    (k', v') ∈ setA l k v := by
  induction l with
  | nil => cases hmem
  | cons p t ih =>
    obtain ⟨k₀, v₀⟩ := p
    rcases List.mem_cons.mp hmem with h | h
    · cases h
      by_cases h0 : k' = k
      · exact absurd h0 hne
      · simp [setA, h0]
    · by_cases h0 : k₀ = k
      · subst h0
        simp [setA]
        right
        exact h
      · simp [setA, h0]
        right
        exact ih h

/-! ### Claim theorems -/

/-- C7: a community post arriving inside the quiet window makes the sender
receive a synthetic quiet-moment system message, while the message is
neither buffered nor broadcast and the whole state is unchanged. -/
theorem c7_quiet_moment (moderate : String → Verdict) (now : Nat) (rnd : String)
    (conn : Conn) (s : ServerState) (m : Msg)
    (htext : m.text ≠ "") (hroom : m.roomId = "community")
    (h1 : now ≥ s.quietStart) (h2 : now ≤ s.quietEnd) :
    handleMessage moderate now rnd conn s (some { message := some m }) =
      (conn, s, [SEvent.quietNotice (quietMsg now rnd)]) := by
  simp [handleMessage, htext, hroom, h1, h2]

theorem c7_quiet_moment_witness :
    handleMessage (fun _ => Verdict.ALLOWED) 5 "z" Conn.init
      { initState with quietStart := 3, quietEnd := 9 }
      (some { message := some { id := "m1", senderId := "a", senderName := "A",
                                text := "hello", timestamp := 5,
                                roomId := "community" } }) =
      (Conn.init, { initState with quietStart := 3, quietEnd := 9 },
       [SEvent.quietNotice (quietMsg 5 "z")]) :=
  c7_quiet_moment _ 5 "z" Conn.init _ _ (by decide) rfl (by decide) (by decide)

/-- C4: a message whose moderation verdict is BLOCKED closes an existing
targeted private room with a broadcast system notice, and in the community
channel is echoed to the sender only, with the buffer untouched. -/
theorem c4_blocked_policy (moderate : String → Verdict) (now : Nat) (rnd : String)
    (conn : Conn) (s : ServerState) (m : Msg)
    (htext : m.text ≠ "")
    (hquiet : ¬(m.roomId = "community" ∧ now ≥ s.quietStart ∧ now ≤ s.quietEnd))
    (hb : moderate m.text = Verdict.BLOCKED) :
    (∀ room : Room, m.roomId ≠ "community" →
        lookupA s.privateRooms m.roomId = some room →
        handleMessage moderate now rnd conn s (some { message := some m }) =
          (conn, { s with privateRooms := eraseA s.privateRooms m.roomId },
           [SEvent.chatClosed m.roomId "moderation"
             (some "This private chat has ended.")]))
    ∧ (m.roomId = "community" →
        handleMessage moderate now rnd conn s (some { message := some m }) =
          (conn, s, [SEvent.echoMsg m])) := by
  constructor
  · intro room hpriv hfound
    simp [handleMessage, htext, hquiet, hb, hpriv, hfound]
  · intro hcom
    simp [handleMessage, htext, hquiet, hb, hcom]
    intro h1
    by_contra h2
    push_neg at h2
    exact hquiet ⟨hcom, h1, h2⟩

theorem c4_blocked_policy_witness :
    (handleMessage (fun _ => Verdict.BLOCKED) 50 "z" Conn.init
        { initState with privateRooms :=
            [("p1", { id := "p1", participants := ["a", "b"], reconnectCode := "K1K1K1",
                      createdAt := 0, expiresAt := 1800000, extended := false,
                      stageDecisions := [("5min", []), ("2min", [])],
                      rejoinStartedAt := none })] }
        (some { message := some { id := "m1", senderId := "a", senderName := "A",
                                  text := "bad", timestamp := 50, roomId := "p1" } }) =
      (Conn.init, initState,
       [SEvent.chatClosed "p1" "moderation" (some "This private chat has ended.")]))
    ∧ (handleMessage (fun _ => Verdict.BLOCKED) 50 "z" Conn.init initState
        (some { message := some { id := "m2", senderId := "a", senderName := "A",
                                  text := "bad", timestamp := 50,
                                  roomId := "community" } }) =
      (Conn.init, initState,
       [SEvent.echoMsg { id := "m2", senderId := "a", senderName := "A",
                         text := "bad", timestamp := 50, roomId := "community" }])) := by
  constructor
  · have h := (c4_blocked_policy (fun _ => Verdict.BLOCKED) 50 "z" Conn.init
      { initState with privateRooms :=
          [("p1", { id := "p1", participants := ["a", "b"], reconnectCode := "K1K1K1",
                    createdAt := 0, expiresAt := 1800000, extended := false,
                    stageDecisions := [("5min", []), ("2min", [])],
                    rejoinStartedAt := none })] }
      { id := "m1", senderId := "a", senderName := "A",
        text := "bad", timestamp := 50, roomId := "p1" }
      (by decide) (by decide) rfl).1
    simpa using h _ (by decide) (by rfl)
  · exact (c4_blocked_policy (fun _ => Verdict.BLOCKED) 50 "z" Conn.init initState
      { id := "m2", senderId := "a", senderName := "A",
        text := "bad", timestamp := 50, roomId := "community" }
      (by decide) (by decide) rfl).2 rfl

/-- C9: the claim that every malformed inbound event is a silent no-op.
The guards do hold for `HEARTBEAT` without a user and `MESSAGE` without a
message/text, but `CHAT_EXIT` and `CHAT_EXTENSION_DECISION` dereference an
absent payload and throw, contradicting the never-crashes claim. -/
theorem c9_malformed_inputs :
    (∀ s : ServerState, handleChatExit s none = Except.error "TypeError")
    ∧ (∀ (now : Nat) (rnd : String) (s : ServerState),
        handleExtensionDecision now rnd s none = Except.error "TypeError")
    ∧ (∀ (sockId : String) (s : ServerState),
        handleHeartbeat sockId s none = Except.error "TypeError")
    ∧ (∀ (sockId : String) (s : ServerState),
        handleHeartbeat sockId s (some { user := none }) = Except.ok (s, []))
    ∧ (∀ (moderate : String → Verdict) (now : Nat) (rnd : String)
        (conn : Conn) (s : ServerState),
        handleMessage moderate now rnd conn s (some { message := none }) =
          (conn, s, [])) :=
  ⟨fun _ => rfl, fun _ _ _ => rfl, fun _ _ => rfl, fun _ _ => rfl,
   fun _ _ _ _ _ => rfl⟩

/-- C6 (amended): for a requester that is registered in the users map, a
rejoin whose reconnect code matches no room always yields the typed
`Invalid or Expired Secret Key` error event. -/
theorem c6_rejoin_unknown_code (sockId : String) (s : ServerState) (code : String)
    (u : UserRec) (hu : lookupA s.users sockId = some u)
    (hnot : ∀ p ∈ s.privateRooms, p.2.reconnectCode ≠ code) :
    handleChatRejoin sockId s code =
      (s, [SEvent.errorEv "Invalid or Expired Secret Key"]) := by
  have hfind : s.privateRooms.find? (fun p => p.2.reconnectCode = code) = none := by
    apply List.find?_eq_none.mpr
    intro p hp
    simp [hnot p hp]
  simp [handleChatRejoin, hu, hfind]

theorem c6_rejoin_unknown_code_witness :
    handleChatRejoin "sock1" { initState with users := [("sock1", { id := "U1" })] }
        "ZZZZZZ" =
      ({ initState with users := [("sock1", { id := "U1" })] },
       [SEvent.errorEv "Invalid or Expired Secret Key"]) :=
  c6_rejoin_unknown_code "sock1" _ "ZZZZZZ" { id := "U1" } rfl
    (by intro p hp; simp [initState] at hp)

/-- C6 counterexample: with no user record for the requesting socket, a
rejoin with a code matching no room (the room map is empty) produces no
events at all — a silent no-op, refuting the claim for arbitrary
requesters and states. -/
theorem c6_counterexample :
    initState.privateRooms = [] ∧
    handleChatRejoin "sock1" initState "ZZZZZZ" = (initState, []) :=
  ⟨rfl, rfl⟩

/-- C1 (amended): `CHAT_ACCEPT` stores the accepted room unconditionally
(with fresh stage decisions) and leaves every other room in place — the
coordinator never rejects an acceptance because the accepting participant
already owns an active room, so the at-most-one-room invariant is not
enforced server-side. -/
theorem c1_accept_unconditional (s : ServerState) (r : Room) (id' : String) (r' : Room)
    (hmem : (id', r') ∈ s.privateRooms) (hne : id' ≠ r.id) :
    lookupA (handleChatAccept s r).1.privateRooms r.id =
      some { r with stageDecisions := [("5min", []), ("2min", [])] }
    ∧ (id', r') ∈ (handleChatAccept s r).1.privateRooms
    ∧ (handleChatAccept s r).2 = [SEvent.chatAccepted r.id] := by
  refine ⟨?_, ?_, rfl⟩
  · exact lookupA_setA_self s.privateRooms r.id _
  · exact mem_setA_of_ne s.privateRooms r.id _ id' r' hmem hne

/-- First room used in the C1 scenario: owned by X together with B. -/
def roomX1 : Room :=
  { id := "r1", participants := ["X", "B"], reconnectCode := "AAAAAA",
    createdAt := 0, expiresAt := 1800000, extended := false,
    stageDecisions := [], rejoinStartedAt := none }

/-- Second room used in the C1 scenario: owned by X together with C. -/
def roomX2 : Room :=
  { id := "r2", participants := ["X", "C"], reconnectCode := "CCCCCC",
    createdAt := 10, expiresAt := 1800010, extended := false,
    stageDecisions := [], rejoinStartedAt := none }

/-- The coordinator state after X's partner rooms r1 and r2 are both
accepted. -/
def twoRoomState : ServerState :=
  (handleChatAccept (handleChatAccept initState roomX1).1 roomX2).1

theorem c1_accept_unconditional_witness :
    lookupA twoRoomState.privateRooms roomX2.id =
      some { roomX2 with stageDecisions := [("5min", []), ("2min", [])] }
    ∧ ("r1", { roomX1 with stageDecisions := [("5min", []), ("2min", [])] })
        ∈ twoRoomState.privateRooms
    ∧ (handleChatAccept (handleChatAccept initState roomX1).1 roomX2).2 =
        [SEvent.chatAccepted roomX2.id] :=
  c1_accept_unconditional (handleChatAccept initState roomX1).1 roomX2
    "r1" { roomX1 with stageDecisions := [("5min", []), ("2min", [])] }
    (by decide) (by decide)

/-- C1 counterexample: after a sequence of two `CHAT_ACCEPT` events the
room map holds two active rooms, r1 and r2, both containing participant X
— the acceptance was not rejected, refuting the at-most-one-active-room
claim for the coordinator. -/
theorem c1_counterexample :
    ((lookupA twoRoomState.privateRooms "r1").map Room.participants =
      some ["X", "B"])
    ∧ ((lookupA twoRoomState.privateRooms "r2").map Room.participants =
      some ["X", "C"]) := by
  decide

theorem setA_setA_self {α : Type} (l : List (String × α)) (k : String) (v w : α) :
    setA (setA l k v) k w = setA l k w := by
  induction l with
  | nil => simp [setA]
  | cons p t ih =>
    obtain ⟨k₀, v₀⟩ := p
    by_cases h : k₀ = k
    · simp [setA, h]
    · simp [setA, h, ih]

/-- Shared analysis of one full extension-stage run: the first decision is
recorded without resolving, resubmitting it changes nothing, the second
decision under a distinct userId resolves the stage (extended, expiry at
`now2 + 1800000`, one extension broadcast), and any decision after that is
a no-op. -/
theorem extension_stage_resolution (s : ServerState) (r : Room)
    (rid stage u v : String) (now1 now2 now3 now4 : Nat)
    (rnd1 rnd2 rnd3 rnd4 : String)
    (hid : r.id = rid)
    (hlook : lookupA s.privateRooms rid = some r)
    (hext : r.extended = false)
    (hstage : lookupA r.stageDecisions stage = some [])
    (huv : u ≠ v) :
    ∃ s1 room2,
      handleExtensionDecision now1 rnd1 s
          (some { roomId := rid, stage := stage, decision := "EXTEND", userId := u }) =
        Except.ok (s1, [])
      ∧ handleExtensionDecision now3 rnd3 s1
          (some { roomId := rid, stage := stage, decision := "EXTEND", userId := u }) =
        Except.ok (s1, [])
      ∧ handleExtensionDecision now2 rnd2 s1
          (some { roomId := rid, stage := stage, decision := "EXTEND", userId := v }) =
        Except.ok ({ s1 with privateRooms := setA s1.privateRooms rid room2 },
          [SEvent.chatExtended rid, SEvent.sysBroadcast (extOkMsg rid now2 rnd2)])
      ∧ room2.extended = true ∧ room2.expiresAt = now2 + 1800000
      ∧ handleExtensionDecision now4 rnd4
          { s1 with privateRooms := setA s1.privateRooms rid room2 }
          (some { roomId := rid, stage := stage, decision := "EXTEND", userId := v }) =
        Except.ok ({ s1 with privateRooms := setA s1.privateRooms rid room2 }, []) := by
  refine ⟨{ s with privateRooms := setA s.privateRooms rid { r with stageDecisions := setA r.stageDecisions stage [(u, "EXTEND")] } }, { r with stageDecisions := setA (setA r.stageDecisions stage [(u, "EXTEND")]) stage [(u, "EXTEND"), (v, "EXTEND")], extended := true, expiresAt := now2 + 1800000 }, ?_, ?_, ?_, rfl, rfl, ?_⟩
  · simp [handleExtensionDecision, hlook, hext, hstage, setA]
  · simp [handleExtensionDecision, lookupA_setA_self, hext, lookupA_setA_self,
      setA, setA_setA_self]
  · simp [handleExtensionDecision, lookupA_setA_self, hext, setA, huv, hid,
      setA_setA_self]
  · simp [handleExtensionDecision, lookupA_setA_self]

/-- C2 (amended): once EXTEND decisions from the room's two participants
are recorded for a stage, `expiresAt` is set to `now + 1,800,000` ms (not
incremented by 1,800,000), `extended` becomes true exactly once (a later
resubmission is a no-op), and resubmitting the same decision before
resolution also changes nothing. -/
theorem c2_extension (s : ServerState) (r : Room)
    (rid stage u v : String) (now1 now2 now3 now4 : Nat)
    (rnd1 rnd2 rnd3 rnd4 : String)
    (hid : r.id = rid)
    (hlook : lookupA s.privateRooms rid = some r)
    (hext : r.extended = false)
    (hstage : lookupA r.stageDecisions stage = some [])
    (huv : u ≠ v)
    (_hu : u ∈ r.participants) (_hv : v ∈ r.participants) :
    ∃ s1 room2,
      handleExtensionDecision now1 rnd1 s
          (some { roomId := rid, stage := stage, decision := "EXTEND", userId := u }) =
        Except.ok (s1, [])
      ∧ handleExtensionDecision now3 rnd3 s1
          (some { roomId := rid, stage := stage, decision := "EXTEND", userId := u }) =
        Except.ok (s1, [])
      ∧ handleExtensionDecision now2 rnd2 s1
          (some { roomId := rid, stage := stage, decision := "EXTEND", userId := v }) =
        Except.ok ({ s1 with privateRooms := setA s1.privateRooms rid room2 },
          [SEvent.chatExtended rid, SEvent.sysBroadcast (extOkMsg rid now2 rnd2)])
      ∧ room2.extended = true ∧ room2.expiresAt = now2 + 1800000
      ∧ handleExtensionDecision now4 rnd4
          { s1 with privateRooms := setA s1.privateRooms rid room2 }
          (some { roomId := rid, stage := stage, decision := "EXTEND", userId := v }) =
        Except.ok ({ s1 with privateRooms := setA s1.privateRooms rid room2 }, []) :=
  extension_stage_resolution s r rid stage u v now1 now2 now3 now4
    rnd1 rnd2 rnd3 rnd4 hid hlook hext hstage huv

/-- The concrete room used for the extension scenarios: created at 0,
expiring at 1,800,000, not extended, no decisions yet. -/
def extRoom : Room :=
  { id := "r1", participants := ["A", "B"], reconnectCode := "K1K1K1",
    createdAt := 0, expiresAt := 1800000, extended := false,
    stageDecisions := [("5min", []), ("2min", [])], rejoinStartedAt := none }

/-- A coordinator state holding just `extRoom`. -/
def extState : ServerState := { initState with privateRooms := [("r1", extRoom)] }

/-- Applies one `CHAT_EXTENSION_DECISION` for stage 5min of room r1 and
keeps the resulting state. -/
def extStep (now : Nat) (uid : String) (s : ServerState) : ServerState :=
  match handleExtensionDecision now "z" s
      (some { roomId := "r1", stage := "5min", decision := "EXTEND", userId := uid }) with
  | .ok p => p.1
  | .error _ => s

theorem c2_extension_witness :
    ∃ s1 room2,
      handleExtensionDecision 500000 "z" extState
          (some { roomId := "r1", stage := "5min", decision := "EXTEND", userId := "A" }) =
        Except.ok (s1, [])
      ∧ handleExtensionDecision 550000 "w" s1
          (some { roomId := "r1", stage := "5min", decision := "EXTEND", userId := "A" }) =
        Except.ok (s1, [])
      ∧ handleExtensionDecision 600000 "z" s1
          (some { roomId := "r1", stage := "5min", decision := "EXTEND", userId := "B" }) =
        Except.ok ({ s1 with privateRooms := setA s1.privateRooms "r1" room2 },
          [SEvent.chatExtended "r1", SEvent.sysBroadcast (extOkMsg "r1" 600000 "z")])
      ∧ room2.extended = true ∧ room2.expiresAt = 600000 + 1800000
      ∧ handleExtensionDecision 700000 "q"
          { s1 with privateRooms := setA s1.privateRooms "r1" room2 }
          (some { roomId := "r1", stage := "5min", decision := "EXTEND", userId := "B" }) =
        Except.ok ({ s1 with privateRooms := setA s1.privateRooms "r1" room2 }, []) :=
  c2_extension extState extRoom "r1" "5min" "A" "B" 500000 600000 550000 700000
    "z" "z" "w" "q" rfl rfl rfl rfl (by decide) (by decide) (by decide)

/-- C2 counterexample: with the room expiring at 1,800,000 and both EXTEND
decisions arriving by time 600,000, the new `expiresAt` is 2,400,000 — an
increase of 600,000 ms, not the claimed 1,800,000 ms (the handler sets
`expiresAt = now + 1800000` instead of adding 1,800,000). -/
theorem c2_counterexample :
    extRoom.expiresAt = 1800000
    ∧ (lookupA (extStep 600000 "B" (extStep 500000 "A" extState)).privateRooms
        "r1").map Room.expiresAt = some 2400000
    ∧ 2400000 - 1800000 ≠ 1800000 := by decide

/-- C10: a stage resolves as soon as decisions are recorded under any two
distinct userId keys — nothing requires them to be the room's declared
participants — setting `extended := true` and `expiresAt := now + 30min`. -/
theorem c10_stage_resolution_ignores_participants (s : ServerState) (r : Room)
    (rid stage u v : String) (now1 now2 : Nat) (rnd1 rnd2 : String)
    (hid : r.id = rid)
    (hlook : lookupA s.privateRooms rid = some r)
    (hext : r.extended = false)
    (hstage : lookupA r.stageDecisions stage = some [])
    (huv : u ≠ v) :
    ∃ s1 room2,
      handleExtensionDecision now1 rnd1 s
          (some { roomId := rid, stage := stage, decision := "EXTEND", userId := u }) =
        Except.ok (s1, [])
      ∧ handleExtensionDecision now2 rnd2 s1
          (some { roomId := rid, stage := stage, decision := "EXTEND", userId := v }) =
        Except.ok ({ s1 with privateRooms := setA s1.privateRooms rid room2 },
          [SEvent.chatExtended rid, SEvent.sysBroadcast (extOkMsg rid now2 rnd2)])
      ∧ room2.extended = true ∧ room2.expiresAt = now2 + 1800000 := by
  obtain ⟨s1, room2, h1, _, h2, h3, h4, _⟩ :=
    extension_stage_resolution s r rid stage u v now1 now2 0 0 rnd1 rnd2 "" ""
      hid hlook hext hstage huv
  exact ⟨s1, room2, h1, h2, h3, h4⟩

theorem c10_stage_resolution_ignores_participants_witness :
    ("x" ∉ extRoom.participants) ∧ ("y" ∉ extRoom.participants) ∧
    ∃ s1 room2,
      handleExtensionDecision 500000 "z" extState
          (some { roomId := "r1", stage := "5min", decision := "EXTEND", userId := "x" }) =
        Except.ok (s1, [])
      ∧ handleExtensionDecision 600000 "z" s1
          (some { roomId := "r1", stage := "5min", decision := "EXTEND", userId := "y" }) =
        Except.ok ({ s1 with privateRooms := setA s1.privateRooms "r1" room2 },
          [SEvent.chatExtended "r1", SEvent.sysBroadcast (extOkMsg "r1" 600000 "z")])
      ∧ room2.extended = true ∧ room2.expiresAt = 600000 + 1800000 :=
  ⟨by decide, by decide,
   c10_stage_resolution_ignores_participants extState extRoom "r1" "5min" "x" "y"
     500000 600000 "z" "z" rfl rfl rfl rfl (by decide)⟩

/-- Any `CHAT_CLOSED` event the room loop emits names a key of the room
map. -/
theorem tickRooms_closed_id_mem (now : Nat) (users : List (String × UserRec))
    (rooms : List (String × Room)) (i reason : String) (sm : Option String)
    (h : SEvent.chatClosed i reason sm ∈ (tickRooms now users rooms).2) :
    i ∈ rooms.map Prod.fst := by
  induction rooms with
  | nil => simp [tickRooms] at h
  | cons p t ih =>
    obtain ⟨id, r⟩ := p
    by_cases hexp : now > r.expiresAt
    · simp only [tickRooms, if_pos hexp, List.mem_cons] at h
      rcases h with h | h
      · cases h
        simp
      · simp [ih h]
    · by_cases hcnt : activeParticipantsCount users r < 2
      · rcases hrj : r.rejoinStartedAt with _ | t0
        · simp only [tickRooms, if_neg hexp, if_pos hcnt, hrj] at h
          simp [ih h]
        · by_cases hgt : now - t0 > 900000
          · simp only [tickRooms, if_neg hexp, if_pos hcnt, hrj, if_pos hgt,
              List.mem_cons] at h
            rcases h with h | h
            · cases h
              simp
            · simp [ih h]
          · simp only [tickRooms, if_neg hexp, if_pos hcnt, hrj, if_neg hgt] at h
            simp [ih h]
      · simp only [tickRooms, if_neg hexp, if_neg hcnt] at h
        simp [ih h]

/-- A room past its rejoin deadline with a participant still missing is
closed with reason `rejoin_expired` by the tick loop. -/
theorem tickRooms_closes_rejoin (now : Nat) (users : List (String × UserRec))
    (rooms : List (String × Room)) (id : String) (r : Room) (t0 : Nat)
    (hmem : (id, r) ∈ rooms) (hexp : ¬ now > r.expiresAt)
    (hrj : r.rejoinStartedAt = some t0) (hgt : now - t0 > 900000)
    (hcnt : activeParticipantsCount users r < 2) :
    SEvent.chatClosed id "rejoin_expired" none ∈ (tickRooms now users rooms).2 := by
  induction rooms with
  | nil => cases hmem
  | cons p t ih =>
    obtain ⟨k, rk⟩ := p
    rcases List.mem_cons.mp hmem with h | h
    · obtain ⟨h1, h2⟩ := Prod.mk.injEq .. ▸ h
      subst h1
      subst h2
      simp [tickRooms, if_neg hexp, if_pos hcnt, hrj, if_pos hgt]
    · by_cases hexp' : now > rk.expiresAt
      · simp [tickRooms, if_pos hexp', ih h]
      · by_cases hcnt' : activeParticipantsCount users rk < 2
        · rcases hrj' : rk.rejoinStartedAt with _ | t0'
          · simp [tickRooms, if_neg hexp', if_pos hcnt', hrj', ih h]
          · by_cases hgt' : now - t0' > 900000
            · simp [tickRooms, if_neg hexp', if_pos hcnt', hrj', if_pos hgt', ih h]
            · simp [tickRooms, if_neg hexp', if_pos hcnt', hrj', if_neg hgt', ih h]
        · simp [tickRooms, if_neg hexp', if_neg hcnt', ih h]

/-- A room whose two participants are both present again has its
`rejoinStartedAt` cleared and survives the tick loop. -/
theorem tickRooms_clears_rejoin (now : Nat) (users : List (String × UserRec))
    (rooms : List (String × Room)) (id : String) (r : Room)
    (hmem : (id, r) ∈ rooms) (hexp : ¬ now > r.expiresAt)
    (hcnt : ¬ activeParticipantsCount users r < 2) :
    (id, { r with rejoinStartedAt := none }) ∈ (tickRooms now users rooms).1 := by
  induction rooms with
  | nil => cases hmem
  | cons p t ih =>
    obtain ⟨k, rk⟩ := p
    rcases List.mem_cons.mp hmem with h | h
    · obtain ⟨h1, h2⟩ := Prod.mk.injEq .. ▸ h
      subst h1
      subst h2
      simp [tickRooms, if_neg hexp, if_neg hcnt]
    · by_cases hexp' : now > rk.expiresAt
      · simp [tickRooms, if_pos hexp', ih h]
      · by_cases hcnt' : activeParticipantsCount users rk < 2
        · rcases hrj' : rk.rejoinStartedAt with _ | t0'
          · simp [tickRooms, if_neg hexp', if_pos hcnt', hrj', ih h]
          · by_cases hgt' : now - t0' > 900000
            · simp [tickRooms, if_neg hexp', if_pos hcnt', hrj', if_pos hgt', ih h]
            · simp [tickRooms, if_neg hexp', if_pos hcnt', hrj', if_neg hgt', ih h]
        · simp [tickRooms, if_neg hexp', if_neg hcnt', ih h]

/-- With distinct room keys, the tick loop emits no `rejoin_expired`
closure for a non-expired room whose participants are both present. -/
theorem tickRooms_no_close_when_present (now : Nat) (users : List (String × UserRec))
    (rooms : List (String × Room)) (id : String) (r : Room)
    (hmem : (id, r) ∈ rooms) (hnd : (rooms.map Prod.fst).Nodup)
    (hexp : ¬ now > r.expiresAt)
    (hcnt : ¬ activeParticipantsCount users r < 2) :
    SEvent.chatClosed id "rejoin_expired" none ∉ (tickRooms now users rooms).2 := by
  induction rooms with
  | nil => simp [tickRooms]
  | cons p t ih =>
    obtain ⟨k, rk⟩ := p
    have hnd' : (t.map Prod.fst).Nodup := (List.nodup_cons.mp hnd).2
    have hknot : k ∉ t.map Prod.fst := (List.nodup_cons.mp hnd).1
    rcases List.mem_cons.mp hmem with h | h
    · obtain ⟨h1, h2⟩ := Prod.mk.injEq .. ▸ h
      subst h1
      subst h2
      simp only [tickRooms, if_neg hexp, if_neg hcnt]
      intro habs
      exact hknot (tickRooms_closed_id_mem now users t id "rejoin_expired" none habs)
    · have hkne : k ≠ id := by
        intro hk
        subst hk
        exact hknot (by simpa using List.mem_map_of_mem Prod.fst h)
      have ihm := ih h hnd'
      by_cases hexp' : now > rk.expiresAt
      · simp only [tickRooms, if_pos hexp', List.mem_cons]
        rintro (hhd | htl)
        · exact hkne (by injection hhd with e1 e2 e3; exact e1.symm) 
        · exact ihm htl
      · by_cases hcnt' : activeParticipantsCount users rk < 2
        · rcases hrj' : rk.rejoinStartedAt with _ | t0'
          · simpa [tickRooms, if_neg hexp', if_pos hcnt', hrj'] using ihm
          · by_cases hgt' : now - t0' > 900000
            · simp only [tickRooms, if_neg hexp', if_pos hcnt', hrj', if_pos hgt',
                List.mem_cons]
              rintro (hhd | htl)
              · exact hkne (by injection hhd with e1 e2 e3; exact e1.symm)
              · exact ihm htl
            · simpa [tickRooms, if_neg hexp', if_pos hcnt', hrj', if_neg hgt'] using ihm
        · simpa [tickRooms, if_neg hexp', if_neg hcnt'] using ihm

/-- A room entry past its rejoin deadline never survives the tick loop. -/
theorem tickRooms_removes_rejoin (now : Nat) (users : List (String × UserRec))
    (id : String) (r : Room) (t0 : Nat)
    (hrj : r.rejoinStartedAt = some t0) (hgt : now - t0 > 900000) :
    ∀ rooms, (id, r) ∉ (tickRooms now users rooms).1 := by
  intro rooms
  induction rooms with
  | nil => simp [tickRooms]
  | cons p t ih =>
    obtain ⟨k, rk⟩ := p
    by_cases hexp' : now > rk.expiresAt
    · simpa [tickRooms, if_pos hexp'] using ih
    · by_cases hcnt' : activeParticipantsCount users rk < 2
      · rcases hrj' : rk.rejoinStartedAt with _ | t0'
        · simp only [tickRooms, if_neg hexp', if_pos hcnt', hrj', List.mem_cons]
          rintro (hhd | htl)
          · have h2 := congrArg (fun q : String × Room => q.2.rejoinStartedAt) hhd
            simp [hrj] at h2
            omega
          · exact ih htl
        · by_cases hgt' : now - t0' > 900000
          · simpa [tickRooms, if_neg hexp', if_pos hcnt', hrj', if_pos hgt'] using ih
          · simp only [tickRooms, if_neg hexp', if_pos hcnt', hrj', if_neg hgt',
              List.mem_cons]
            rintro (hhd | htl)
            · have h2 := congrArg (fun q : String × Room => q.2.rejoinStartedAt) hhd
              simp [hrj, hrj'] at h2
              omega
            · exact ih htl
      · simp only [tickRooms, if_neg hexp', if_neg hcnt', List.mem_cons]
        rintro (hhd | htl)
        · have h2 := congrArg (fun q : String × Room => q.2.rejoinStartedAt) hhd
          simp [hrj] at h2
        · exact ih htl

/-- C5: on a tick where a non-expired room has had `rejoinStartedAt` set
for more than 900,000 ms and a participant is still missing, the room is
deleted and closed with reason `rejoin_expired`; if both participants are
present again instead, `rejoinStartedAt` is cleared, the room survives,
and no `rejoin_expired` closure is emitted for it. -/
theorem c5_rejoin_window (now : Nat) (s : ServerState) (id : String) (r : Room)
    (hmem : (id, r) ∈ s.privateRooms)
    (hexp : now ≤ r.expiresAt) :
    (∀ t0, r.rejoinStartedAt = some t0 → now - t0 > 900000 →
        activeParticipantsCount s.users r < 2 →
        SEvent.chatClosed id "rejoin_expired" none ∈ (tickCleanup now s).2
        ∧ (id, r) ∉ (tickCleanup now s).1.privateRooms)
    ∧ (2 ≤ activeParticipantsCount s.users r →
        (id, { r with rejoinStartedAt := none }) ∈ (tickCleanup now s).1.privateRooms
        ∧ ((s.privateRooms.map Prod.fst).Nodup →
            SEvent.chatClosed id "rejoin_expired" none ∉ (tickCleanup now s).2)) := by
  have hexp' : ¬ now > r.expiresAt := not_lt.mpr hexp
  constructor
  · intro t0 hrj hgt hcnt
    refine ⟨?_, ?_⟩
    · simpa [tickCleanup] using
        tickRooms_closes_rejoin now s.users s.privateRooms id r t0 hmem hexp' hrj hgt hcnt
    · simpa [tickCleanup] using
        tickRooms_removes_rejoin now s.users id r t0 hrj hgt s.privateRooms
  · intro h2
    have hcnt' : ¬ activeParticipantsCount s.users r < 2 := not_lt.mpr h2
    refine ⟨?_, ?_⟩
    · simpa [tickCleanup] using
        tickRooms_clears_rejoin now s.users s.privateRooms id r hmem hexp' hcnt'
    · intro hnd
      simpa [tickCleanup] using
        tickRooms_no_close_when_present now s.users s.privateRooms id r hmem hnd hexp' hcnt'

/-- Room stuck waiting for a missing participant since time 1000. -/
def rejoinRoomGone : Room :=
  { id := "g1", participants := ["A", "B"], reconnectCode := "GGGGGG",
    createdAt := 0, expiresAt := 3600000, extended := true,
    stageDecisions := [("5min", []), ("2min", [])], rejoinStartedAt := some 1000 }

/-- Room whose missing participant has returned (both present). -/
def rejoinRoomBack : Room :=
  { id := "g2", participants := ["C", "D"], reconnectCode := "HHHHHH",
    createdAt := 0, expiresAt := 3600000, extended := true,
    stageDecisions := [("5min", []), ("2min", [])], rejoinStartedAt := some 1100 }

/-- State at time 901500: rooms g1 (participants absent) and g2 (both
participants present via heartbeats). -/
def rejoinState : ServerState :=
  { users := [("sC", { id := "C" }), ("sD", { id := "D" })],
    communityMessages := [], privateRooms :=
      [("g1", rejoinRoomGone), ("g2", rejoinRoomBack)],
    quietStart := 0, quietEnd := 0 }

theorem c5_rejoin_window_witness :
    (SEvent.chatClosed "g1" "rejoin_expired" none ∈ (tickCleanup 901500 rejoinState).2
      ∧ ("g1", rejoinRoomGone) ∉ (tickCleanup 901500 rejoinState).1.privateRooms)
    ∧ (("g2", { rejoinRoomBack with rejoinStartedAt := none })
          ∈ (tickCleanup 901500 rejoinState).1.privateRooms
        ∧ SEvent.chatClosed "g2" "rejoin_expired" none ∉ (tickCleanup 901500 rejoinState).2) :=
  ⟨(c5_rejoin_window 901500 rejoinState "g1" rejoinRoomGone (by decide)
      (by decide)).1 1000 rfl (by decide) (by decide),
   ⟨((c5_rejoin_window 901500 rejoinState "g2" rejoinRoomBack (by decide)
      (by decide)).2 (by decide)).1,
    ((c5_rejoin_window 901500 rejoinState "g2" rejoinRoomBack (by decide)
      (by decide)).2 (by decide)).2 (by decide)⟩⟩

/-- C3 (amended): after the tick cleanup at time `now`, every message still
in the community buffer is younger than 300,000 ms — visibility implies
freshness at tick states. -/
theorem c3_visible_only_if_fresh (now : Nat) (s : ServerState) (m : Msg)
    (hmem : m ∈ (tickCleanup now s).1.communityMessages) :
    now - m.timestamp < 300000 := by
  simp [tickCleanup, List.mem_filter] at hmem
  exact hmem.2

/-- The i-th community message of the C3 eviction scenario (all posted at
time 2000, timestamps 0..200, hence all fresh). -/
def cMsg (i : Nat) : Msg :=
  { id := "m", senderId := "u", senderName := "U", text := "hi",
    timestamp := i, roomId := "community" }

/-- The state after the first `n` messages of the scenario are posted at
time 2000 (outside the quiet window, all verdicts ALLOWED). -/
def postSeq : Nat → ServerState
  | 0 => initState
  | n + 1 =>
    (handleMessage (fun _ => Verdict.ALLOWED) 2000 "z" Conn.init (postSeq n)
      (some { message := some (cMsg n) })).2.1

theorem c3_visible_only_if_fresh_witness :
    2000 - (cMsg 5).timestamp < 300000 :=
  c3_visible_only_if_fresh 2000 (postSeq 6) (cMsg 5) (by decide)

/-- The community buffer after the first `n` posts of the C3 scenario. -/
def bufN : Nat → List Msg
  | 0 => []
  | n + 1 => pushBounded (cMsg n) (bufN n)

theorem postSeq_eq (n : Nat) :
    postSeq n = { initState with communityMessages := bufN n } := by
  induction n with
  | zero => rfl
  | succ n ih =>
    simp only [postSeq]
    rw [ih]
    simp [handleMessage, cMsg, bufN, initState, Conn.init]

set_option maxRecDepth 8000 in
/-- C3 counterexample: post 201 fresh messages; the bounded buffer evicts
message 0 even though `now - timestamp = 2000 < 300000`, so a fresh
message is not visible — the claimed iff fails in the fresh-implies-visible
direction at a state reached by `postMessage` operations alone. -/
theorem c3_counterexample :
    2000 - (cMsg 0).timestamp < 300000
    ∧ cMsg 0 ∉ (postSeq 201).communityMessages
    ∧ cMsg 1 ∈ (postSeq 201).communityMessages := by
  rw [postSeq_eq]
  refine ⟨by decide, by decide, by decide⟩

/-- Number of soft-warning emissions in an event trace. -/
def countSoft (evs : List SEvent) : Nat :=
  evs.countP (fun e => match e with | SEvent.softWarning _ => true | _ => false)

/-- Processing a sequence of `MESSAGE` events on one connection, threading
the per-socket state and collecting the emitted events. -/
def runMessages (moderate : String → Verdict) :
    Conn → ServerState → List (Nat × String × Option MessageData) →
    Conn × ServerState × List SEvent
  | conn, s, [] => (conn, s, [])
  | conn, s, (now, rnd, data) :: rest =>
    let step := handleMessage moderate now rnd conn s data
    let done := runMessages moderate step.1 step.2.1 rest
    (done.1, done.2.1, step.2.2 ++ done.2.2)

/-- One `MESSAGE` emits a soft warning only when `hasSeenSoftFirst` flips
from false to true, and at most once. -/
theorem handleMessage_soft_step (moderate : String → Verdict) (now : Nat)
    (rnd : String) (conn : Conn) (s : ServerState) (data : Option MessageData) :
    countSoft (handleMessage moderate now rnd conn s data).2.2 +
        (if conn.hasSeenSoftFirst then 1 else 0) ≤
      (if (handleMessage moderate now rnd conn s data).1.hasSeenSoftFirst
        then 1 else 0) := by
  rcases data with _ | d
  · simp [handleMessage, countSoft]
  rcases hm : d.message with _ | m
  · simp [handleMessage, hm, countSoft]
  by_cases ht : m.text = ""
  · simp [handleMessage, hm, ht, countSoft]
  by_cases hq : m.roomId = "community" ∧ now ≥ s.quietStart ∧ now ≤ s.quietEnd
  · simp [handleMessage, hm, ht, hq, countSoft]
  cases hv : moderate m.text with
  | BLOCKED =>
    by_cases hc : m.roomId = "community"
    · have hq' : ¬(s.quietStart ≤ now ∧ now ≤ s.quietEnd) :=
        fun hx => hq ⟨hc, hx.1, hx.2⟩
      simp [handleMessage, hm, ht, hq, hq', hv, hc, countSoft]
    · by_cases hr : (lookupA s.privateRooms m.roomId).isSome
      · simp [handleMessage, hm, ht, hq, hv, hc, hr, countSoft]
      · simp [handleMessage, hm, ht, hq, hv, hc, hr, countSoft]
  | ALLOWED =>
    by_cases hsh : conn.isShadowLimited <;>
      simp [handleMessage, hm, ht, hq, hv, hsh, countSoft]
  | BORDERLINE =>
    by_cases hseen : conn.hasSeenSoftFirst <;>
      by_cases hsh : (conn.isShadowLimited || decide (conn.borderlineCount + 1 > 4)) = true <;>
        simp [handleMessage, hm, ht, hq, hv, hseen, hsh, countSoft]

/-- Shadow limiting is permanent for the connection: no `MESSAGE` clears
it. -/
theorem handleMessage_shadow_mono (moderate : String → Verdict) (now : Nat)
    (rnd : String) (conn : Conn) (s : ServerState) (data : Option MessageData)
    (h : conn.isShadowLimited = true) :
    (handleMessage moderate now rnd conn s data).1.isShadowLimited = true := by
  rcases data with _ | d
  · simpa [handleMessage]
  rcases hm : d.message with _ | m
  · simpa [handleMessage, hm]
  by_cases ht : m.text = ""
  · simpa [handleMessage, hm, ht]
  by_cases hq : m.roomId = "community" ∧ now ≥ s.quietStart ∧ now ≤ s.quietEnd
  · simpa [handleMessage, hm, ht, hq]
  cases hv : moderate m.text with
  | BLOCKED =>
    by_cases hc : m.roomId = "community"
    · have hq' : ¬(s.quietStart ≤ now ∧ now ≤ s.quietEnd) :=
        fun hx => hq ⟨hc, hx.1, hx.2⟩
      simpa [handleMessage, hm, ht, hq, hq', hv, hc]
    · by_cases hr : (lookupA s.privateRooms m.roomId).isSome
      · simpa [handleMessage, hm, ht, hq, hv, hc, hr]
      · simpa [handleMessage, hm, ht, hq, hv, hc, hr]
  | ALLOWED =>
    simp [handleMessage, hm, ht, hq, hv, h]
  | BORDERLINE =>
    by_cases hseen : conn.hasSeenSoftFirst <;>
      simp [handleMessage, hm, ht, hq, hv, hseen, h]

/-- Over any message sequence, the count of soft warnings plus the initial
flag is at most one. -/
theorem runMessages_soft_le (moderate : String → Verdict) :
    ∀ (msgs : List (Nat × String × Option MessageData)) (conn : Conn)
      (s : ServerState),
      countSoft (runMessages moderate conn s msgs).2.2 +
        (if conn.hasSeenSoftFirst then 1 else 0) ≤ 1 := by
  intro msgs
  induction msgs with
  | nil =>
    intro conn s
    rcases hc : conn.hasSeenSoftFirst <;> simp [runMessages, countSoft, hc]
  | cons trip rest ih =>
    intro conn s
    obtain ⟨now, rnd, data⟩ := trip
    have hstep := handleMessage_soft_step moderate now rnd conn s data
    have hrest := ih (handleMessage moderate now rnd conn s data).1
      (handleMessage moderate now rnd conn s data).2.1
    simp only [runMessages, countSoft, List.countP_append] at *
    omega

/-- C8 (amended): the soft warning fires at most once per connection; and
once shadow-limited, a participant's messages that reach moderation
without a BLOCKED verdict are echoed to the sender only (state untouched,
no broadcast, every emitted event sender-only) and the penalty persists.
A BLOCKED private-room message is the exception forced by the
counterexample: it closes the room instead of being echoed. -/
theorem c8_borderline_policy (moderate : String → Verdict) :
    (∀ (msgs : List (Nat × String × Option MessageData)) (s : ServerState),
        countSoft (runMessages moderate Conn.init s msgs).2.2 ≤ 1)
    ∧ (∀ (now : Nat) (rnd : String) (conn : Conn) (s : ServerState) (m : Msg),
        conn.isShadowLimited = true → m.text ≠ "" →
        ¬(m.roomId = "community" ∧ now ≥ s.quietStart ∧ now ≤ s.quietEnd) →
        moderate m.text ≠ Verdict.BLOCKED →
        (handleMessage moderate now rnd conn s (some { message := some m })).2.1 = s
        ∧ SEvent.echoMsg m ∈
            (handleMessage moderate now rnd conn s (some { message := some m })).2.2
        ∧ (∀ e ∈ (handleMessage moderate now rnd conn s
              (some { message := some m })).2.2, e.senderOnly = true)
        ∧ (handleMessage moderate now rnd conn s
            (some { message := some m })).1.isShadowLimited = true) := by
  constructor
  · intro msgs s
    have h := runMessages_soft_le moderate msgs Conn.init s
    simpa [Conn.init] using h
  · intro now rnd conn s m hsh ht hq hb
    cases hv : moderate m.text with
    | BLOCKED => exact absurd hv hb
    | ALLOWED =>
      refine ⟨?_, ?_, ?_, ?_⟩ <;>
        simp [handleMessage, ht, hq, hv, hsh, SEvent.senderOnly]
    | BORDERLINE =>
      by_cases hseen : conn.hasSeenSoftFirst <;>
        refine ⟨?_, ?_, ?_, ?_⟩ <;>
          simp [handleMessage, ht, hq, hv, hsh, hseen, SEvent.senderOnly]

/-- A connection that has passed the shadow-limiting threshold. -/
def shadowConn : Conn :=
  { hasSeenSoftFirst := true, borderlineCount := 5, isShadowLimited := true }

/-- A harmless community message from the shadow-limited participant. -/
def m8 : Msg :=
  { id := "w1", senderId := "a", senderName := "A", text := "hey",
    timestamp := 10, roomId := "community" }

theorem c8_borderline_policy_witness :
    countSoft (runMessages (fun _ => Verdict.ALLOWED) Conn.init initState []).2.2 ≤ 1
    ∧ (handleMessage (fun _ => Verdict.ALLOWED) 10 "z" shadowConn initState
        (some { message := some m8 })).2.1 = initState
    ∧ SEvent.echoMsg m8 ∈ (handleMessage (fun _ => Verdict.ALLOWED) 10 "z"
        shadowConn initState (some { message := some m8 })).2.2
    ∧ (handleMessage (fun _ => Verdict.ALLOWED) 10 "z" shadowConn initState
        (some { message := some m8 })).1.isShadowLimited = true :=
  ⟨(c8_borderline_policy (fun _ => Verdict.ALLOWED)).1 [] initState,
   ((c8_borderline_policy (fun _ => Verdict.ALLOWED)).2 10 "z" shadowConn initState
      m8 rfl (by decide) (by decide) (by decide)).1,
   ((c8_borderline_policy (fun _ => Verdict.ALLOWED)).2 10 "z" shadowConn initState
      m8 rfl (by decide) (by decide) (by decide)).2.1,
   ((c8_borderline_policy (fun _ => Verdict.ALLOWED)).2 10 "z" shadowConn initState
      m8 rfl (by decide) (by decide) (by decide)).2.2.2⟩

/-- The BLOCKED private-room message sent by the shadow-limited
participant in the C8 counterexample. -/
def shadowBadMsg : Msg :=
  { id := "b1", senderId := "a", senderName := "A", text := "bad",
    timestamp := 10, roomId := "r1" }

/-- C8 counterexample: a shadow-limited participant sends a BLOCKED
private-room message; instead of being echoed back to the sender it
deletes room r1 and broadcasts a closure to everyone — so not every
post-threshold message is echoed-and-withheld as the claim states. -/
theorem c8_counterexample :
    shadowConn.isShadowLimited = true
    ∧ handleMessage (fun _ => Verdict.BLOCKED) 10 "z" shadowConn extState
        (some { message := some shadowBadMsg }) =
      (shadowConn, { extState with privateRooms := [] },
       [SEvent.chatClosed "r1" "moderation" (some "This private chat has ended.")])
    ∧ SEvent.echoMsg shadowBadMsg ∉
        (handleMessage (fun _ => Verdict.BLOCKED) 10 "z" shadowConn extState
          (some { message := some shadowBadMsg })).2.2 := by
  refine ⟨rfl, by decide, by decide⟩
